import Mathlib

/-!
Verification of the backend-dispatching kernel-matrix engine of `falkon`
(files `falkon/kernels/kernel.py` and `falkon/kernels/keops_helpers.py`).

The dispatch, validation and decomposition logic is embedded shallowly:
tensors become records carrying shape, device, dtype and a sparsity flag;
Python exceptions become `Except Err`; the concrete numeric backends (out of
scope for the spec) are abstracted as an enumeration of backend functions and,
where a caller-supplied primitive is invoked, as an explicit function argument.
-/

namespace Falkon

/-- Device an operand lives on (`torch.device.type`). -/
inductive Device where
  | cpu
  | cuda
deriving DecidableEq, Repr

/-- Element numeric type of an operand. -/
inductive DType where
  | float32
  | float64
deriving DecidableEq, Repr

/-- A (dense or sparse) tensor operand: shape as a list of dimension sizes,
device placement, element type, and whether it is sparse.  The `sparse` flag
covers both `SparseTensor` instances (not `torch.Tensor`s) and sparse torch
tensors, which `should_use_keops` treats identically. -/
structure Tensor where
  shape : List Nat
  device : Device
  dtype : DType
  sparse : Bool
deriving DecidableEq, Repr

namespace Tensor

/-- Embedding of `t.dim()`: number of dimensions. -/
def dim (t : Tensor) : Nat := t.shape.length

/-- Embedding of `t.size(i)`: size of dimension `i` (0 when out of range; Python would
raise, but every use in the embedded code is guarded by a rank check). -/
def size (t : Tensor) (i : Nat) : Nat := t.shape.getD i 0

/-- Embedding of `t.reshape((-1, 1))` applied to a rank-1 tensor: a single-column matrix
with the same entries, device and dtype. -/
def reshapeCol (t : Tensor) : Tensor :=
  { t with shape := [t.shape.headD 0, 1] }

end Tensor

/-- Activation mode of the KeOps engine (`keops_active` option: the source
compares it against the strings "no" and "force"). -/
inductive KeopsActive where
  | no
  | auto
  | force
deriving DecidableEq, Repr

/-- The configuration record (`FalkonOptions` dataclass).  Only the fields the
embedded code reads are modelled; `debug` stands for the remaining tuning
fields so that whole-record replacement is observable. -/
structure FalkonOptions where
  use_cpu : Bool
  keops_active : KeopsActive
  debug : Bool
deriving DecidableEq, Repr

/-- Embedding of `dataclasses.replace(base, **dataclasses.asdict(ov))`: since `asdict`
lists every field of `ov`, every field of `base` is replaced, producing a new
record (neither argument is mutated). -/
def dataclasses_replace (_base ov : FalkonOptions) : FalkonOptions :=
  { use_cpu := ov.use_cpu, keops_active := ov.keops_active, debug := ov.debug }

/-- Modelled from the spec: `decide_cuda` (in `falkon.utils`, not under
`src/`) reads the policy's CPU-only flag to obtain the preferred-backend
boolean. -/
def decide_cuda (opt : FalkonOptions) : Bool := !opt.use_cpu

/-- Modelled from the spec: `decide_keops` (in `falkon.utils.switches`, not
under `src/`) holds when the alternative engine is available
(installed/linked, the module-level `_has_keops` flag, passed explicitly
here) and the policy activation mode is not "off"/"no". -/
def decide_keops (hasKeops : Bool) (opt : FalkonOptions) : Bool :=
  hasKeops && !(opt.keops_active == KeopsActive.no)

/-- Modelled from the spec: `check_same_dtype` (in `falkon.utils.helpers`,
not under `src/`) verifies uniform numeric type across all non-`None`
operands. -/
def check_same_dtype (ts : List (Option Tensor)) : Bool :=
  match ts.filterMap id with
  | [] => true
  | t :: rest => rest.all (fun x => x.dtype == t.dtype)

/-- Modelled from the spec: `check_same_device` (in `falkon.utils.helpers`,
not under `src/`) verifies that all non-`None` operands reside on the same
device. -/
def check_same_device (ts : List (Option Tensor)) : Bool :=
  match ts.filterMap id with
  | [] => true
  | t :: rest => rest.all (fun x => x.device == t.device)

/-- Modelled from the spec: `check_sparse` (in `falkon.utils.helpers`, not
under `src/`) determines the sparsity of each operand independently. -/
def check_sparse (ts : List Tensor) : List Bool := ts.map Tensor.sparse

/-- The errors the embedded code can raise. -/
inductive Err where
  /-- Message "One of v and w must be specified to run fdMMV." -/
  | vwNotSpecified
  /-- Message "Matrix X1 must be 2D." -/
  | x1Not2D
  /-- Message "Matrix X2 must be 2D." -/
  | x2Not2D
  /-- Message "v must be a vector or a 2D matrix. Found {d}D." -/
  | vBadRank (d : Nat)
  /-- Message "w must be a vector or a 2D matrix. Found {d}D." -/
  | wBadRank (d : Nat)
  /-- Message "Output dimension is incorrect. Expected (a, b) found s" -/
  | outShape (a b : Nat) (s : List Nat)
  /-- Message "Dimensions of matrix v are incorrect: Expected (a, b) found s" -/
  | vShape (a b : Nat) (s : List Nat)
  /-- Message "Dimensions of matrix w are incorrect: Expected (a, b) found s" -/
  | wShape (a b : Nat) (s : List Nat)
  /-- Message "Data types of input matrices must be equal." -/
  | dtypeMismatch
  /-- Message "All input arguments to {fn_name} must be on the same device" -/
  | deviceMismatch (fn : String)
  /-- Message "Either all or none of 'X1', 'X2' must be sparse." -/
  | sparsityMismatch
  /-- Message "Module 'pykeops' is not properly installed. ..." -/
  | pykeopsNotInstalled
deriving DecidableEq, Repr

/-- Is an `Except` result a success? -/
def exceptOk {ε α : Type} : Except ε α → Bool
  | .ok _ => true
  | .error _ => false

/-! ### `falkon/kernels/keops_helpers.py` -/

/-- Embedding of `should_use_keops(T1, T2, opt)`: whether the conditions to use KeOps for
mmv operations are satisfied.  The module-level `_has_keops` flag (set by
the module probe) is passed explicitly. -/
def should_use_keops (hasKeops : Bool) (T1 T2 : Tensor) (opt : FalkonOptions) : Bool :=
  -- No handling of sparse tensors
  if T1.sparse || T2.sparse then false
  -- No handling if keops is not installed correctly or keops_active is no
  else if !(decide_keops hasKeops opt) then false
  -- No handling for high dimensional data unless keops_active is in force mode
  else if T1.size 1 > 50 && !(opt.keops_active == KeopsActive.force) then false
  else true

/-- Embedding of `KeopsKernelMixin.keops_mmv`: raises the "not installed" error when
`_has_keops` is false, otherwise normalises `other_vars` and hands everything
to the external `run_keops_mmv` (abstracted as the argument `run`, applied to
its arguments together with the fixed `axis=1` and `reduction="Sum"`). -/
def keops_mmv {M R : Type}
    (hasKeops : Bool)
    (run : M → M → M → List M → Option M → String → List String → Nat → String →
      FalkonOptions → R)
    (X1 X2 v : M) (out : Option M) (formula : String) (aliases : List String)
    (other_vars : Option (List M)) (opt : FalkonOptions) : Except Err R :=
  if !hasKeops then
    .error .pykeopsNotInstalled
  else
    let ov := other_vars.getD []
    .ok (run X1 X2 v ov out formula aliases 1 "Sum" opt)

/-- Embedding of `KeopsKernelMixin.keops_dmmv_helper`: decomposes the double matrix-vector
product into calls to the caller-supplied `mmv_fn`.  `mmv_fn` takes the two
operands, the (possibly absent) vector and the (possibly absent) output
buffer; the kernel and options arguments are threaded unchanged and elided.
`add` models the in-place `out1.add_(w)`.  The branch structure mirrors the
Python `if`/`elif` chain exactly: the `elif v is None` arm matches whatever
`w` is, so the chain is exhaustive and the implicit `return None` fall-through
is unreachable. -/
def keops_dmmv_helper {M V : Type}
    (add : V → V → V)
    (mmv_fn : M → M → Option V → Option V → V)
    (X1 X2 : M) (v w : Option V) (out : Option V) : Option V :=
  match v, w with
  | some v, some w =>
    let out1 := mmv_fn X1 X2 (some v) none
    some (mmv_fn X2 X1 (some (add out1 w)) out)
  | none, w =>
    some (mmv_fn X2 X1 w out)
  | some v, none =>
    let out1 := mmv_fn X1 X2 (some v) none
    some (mmv_fn X2 X1 (some out1) out)

/-- Embedding of `KeopsKernelMixin.keops_can_handle_mm`: always false. -/
def keops_can_handle_mm (_X1 _X2 : Tensor) (_opt : FalkonOptions) : Bool := false

/-- Embedding of `KeopsKernelMixin.keops_can_handle_mmv`. -/
def keops_can_handle_mmv (hasKeops : Bool) (X1 X2 : Tensor) (_v : Option Tensor)
    (opt : FalkonOptions) : Bool :=
  should_use_keops hasKeops X1 X2 opt

/-- Embedding of `KeopsKernelMixin.keops_can_handle_dmmv`. -/
def keops_can_handle_dmmv (hasKeops : Bool) (X1 X2 : Tensor) (v w : Option Tensor)
    (opt : FalkonOptions) : Bool :=
  keops_can_handle_mmv hasKeops X1 X2 v opt &&
    keops_can_handle_mmv hasKeops X2 X1 w opt

/-! ### `falkon/kernels/kernel.py` -/

/-- The concrete backend functions the dispatcher can select.  These live in
`falkon.mmv_ops` (out of scope); only their identity matters here. -/
inductive Backend where
  | fmm_cpu | fmm_cpu_sparse | fmm_cuda | fmm_cuda_sparse
  | fmmv_cpu | fmmv_cpu_sparse | fmmv_cuda | fmmv_cuda_sparse
  | fdmmv_cpu | fdmmv_cpu_sparse | fdmmv_cuda | fdmmv_cuda_sparse
deriving DecidableEq, Repr

/-- Backend table for the matrix-matrix product family. -/
def mm_backend (use_cuda sparsity : Bool) : Backend :=
  match use_cuda, sparsity with
  | true, true => .fmm_cuda_sparse
  | true, false => .fmm_cuda
  | false, true => .fmm_cpu_sparse
  | false, false => .fmm_cpu

/-- Backend table for the matrix-vector product family. -/
def mmv_backend (use_cuda sparsity : Bool) : Backend :=
  match use_cuda, sparsity with
  | true, true => .fmmv_cuda_sparse
  | true, false => .fmmv_cuda
  | false, true => .fmmv_cpu_sparse
  | false, false => .fmmv_cpu

/-- Backend table for the double matrix-vector product family. -/
def dmmv_backend (use_cuda sparsity : Bool) : Backend :=
  match use_cuda, sparsity with
  | true, true => .fdmmv_cuda_sparse
  | true, false => .fdmmv_cuda
  | false, true => .fdmmv_cpu_sparse
  | false, false => .fdmmv_cpu

/-- The rank-1-to-column coercion the validators apply to vector operands:
`if t.dim() == 1: t = t.reshape((-1, 1))`. -/
def coerceVec (t : Tensor) : Tensor := if t.dim = 1 then t.reshapeCol else t

/-- The kernel object's state: name, type tag and stored default options
(`self.params`). -/
structure Kernel where
  name : String
  kernel_type : String
  params : FalkonOptions
deriving DecidableEq, Repr

namespace Kernel

/-- Embedding of `Kernel._check_dmmv_dimensions(X1, X2, v, w, out)`: validation for the
double matrix-vector product, returning the (possibly reshaped) arguments. -/
def _check_dmmv_dimensions (X1 X2 : Tensor) (v w out : Option Tensor) :
    Except Err (Tensor × Tensor × Option Tensor × Option Tensor × Option Tensor) :=
  if v = none ∧ w = none then .error .vwNotSpecified
  else if X1.dim ≠ 2 then .error .x1Not2D
  else if X2.dim ≠ 2 then .error .x2Not2D
  else
    let v := v.map coerceVec
    match v.filter (fun t => t.dim != 2) with
    | some t => .error (.vBadRank t.dim)
    | none =>
      let w := w.map coerceVec
      match w.filter (fun t => t.dim != 2) with
      | some t => .error (.wBadRank t.dim)
      | none =>
        let T := match v with
          | some t => t.size 1
          | none => (w.map (fun t => t.size 1)).getD 0
        let M := X2.size 0
        match out.filter (fun o => o.shape != [M, T]) with
        | some o => .error (.outShape M T o.shape)
        | none =>
          match v.filter (fun t => t.shape != [X2.size 0, T]) with
          | some t => .error (.vShape M T t.shape)
          | none =>
            match w.filter (fun t => t.shape != [X1.size 0, T]) with
            | some t => .error (.wShape (X1.size 0) T t.shape)
            | none =>
              if !(check_same_dtype [some X1, some X2, v, w, out]) then
                .error .dtypeMismatch
              else
                .ok (X1, X2, v, w, out)

/-- Embedding of `Kernel._check_mmv_dimensions(X1, X2, v, out)`: validation for the
matrix-vector product, returning the (possibly reshaped) arguments. -/
def _check_mmv_dimensions (X1 X2 v : Tensor) (out : Option Tensor) :
    Except Err (Tensor × Tensor × Tensor × Option Tensor) :=
  if X1.dim ≠ 2 then .error .x1Not2D
  else if X2.dim ≠ 2 then .error .x2Not2D
  else
    let v := coerceVec v
    if v.dim ≠ 2 then .error (.vBadRank v.dim)
    else
      match out.filter (fun o => o.shape != [X1.size 0, v.size 1]) with
      | some o => .error (.outShape (X1.size 0) (v.size 1) o.shape)
      | none =>
        if v.shape ≠ [X2.size 0, v.size 1] then
          .error (.vShape (X2.size 0) (v.size 1) v.shape)
        else if !(check_same_dtype [some X1, some X2, some v, out]) then
          .error .dtypeMismatch
        else
          .ok (X1, X2, v, out)

/-- Embedding of `Kernel._check_mm_dimensions(X1, X2, out)`: validation for the
matrix-matrix product. -/
def _check_mm_dimensions (X1 X2 : Tensor) (out : Option Tensor) :
    Except Err (Tensor × Tensor × Option Tensor) :=
  if X1.dim ≠ 2 then .error .x1Not2D
  else if X2.dim ≠ 2 then .error .x2Not2D
  else
    let N := X1.size 0
    let M := X2.size 0
    match out.filter (fun o => o.shape != [N, M]) with
    | some o => .error (.outShape N M o.shape)
    | none =>
      if !(check_same_dtype [some X1, some X2, out]) then .error .dtypeMismatch
      else .ok (X1, X2, out)

/-- Embedding of `Kernel._check_device_properties(*args, fn_name, opt)`. -/
def _check_device_properties (args : List (Option Tensor)) (fn : String) :
    Except Err Unit :=
  if !(check_same_device args) then .error (.deviceMismatch fn) else .ok ()

/-- Embedding of `Kernel._decide_mm_impl`: sparsity consistency check, CPU-policy
override on GPU data, and backend table lookup.  Returns the selected backend
together with whether the advisory warning was emitted. -/
def _decide_mm_impl (X1 X2 : Tensor) (opt : FalkonOptions) :
    Except Err (Backend × Bool) :=
  let use_cuda := decide_cuda opt
  let sp := check_sparse [X1, X2]
  if !sp.all id && sp.any id then .error .sparsityMismatch
  else
    let sparsity := sp.all id
    let warn := X1.device == Device.cuda && !use_cuda
    let use_cuda := if warn then true else use_cuda
    .ok (mm_backend use_cuda sparsity, warn)

/-- Embedding of `Kernel._decide_mmv_impl`: same resolution shape as `_decide_mm_impl`,
with the matrix-vector backend table. -/
def _decide_mmv_impl (X1 X2 : Tensor) (_v : Tensor) (opt : FalkonOptions) :
    Except Err (Backend × Bool) :=
  let use_cuda := decide_cuda opt
  let sp := check_sparse [X1, X2]
  if !sp.all id && sp.any id then .error .sparsityMismatch
  else
    let warn := X1.device == Device.cuda && !use_cuda
    let use_cuda := if warn then true else use_cuda
    let sparsity := sp.all id
    .ok (mmv_backend use_cuda sparsity, warn)

/-- Embedding of `Kernel._decide_dmmv_impl`: same resolution shape, with the double
matrix-vector backend table. -/
def _decide_dmmv_impl (X1 X2 : Tensor) (_v _w : Option Tensor) (opt : FalkonOptions) :
    Except Err (Backend × Bool) :=
  let use_cuda := decide_cuda opt
  let sp := check_sparse [X1, X2]
  if !sp.all id && sp.any id then .error .sparsityMismatch
  else
    let warn := X1.device == Device.cuda && !use_cuda
    let use_cuda := if warn then true else use_cuda
    let sparsity := sp.all id
    .ok (dmmv_backend use_cuda sparsity, warn)

end Kernel

/-- What a public operation hands to the selected backend: the backend
identity, whether the advisory warning fired, the validated (possibly
reshaped) arguments and the merged per-call options. -/
structure Dispatch where
  backend : Backend
  warned : Bool
  X1 : Tensor
  X2 : Tensor
  v : Option Tensor
  w : Option Tensor
  out : Option Tensor
  params : FalkonOptions
deriving DecidableEq, Repr

namespace Kernel

/-- Embedding of `Kernel.__call__(X1, X2, out, opt)` up to the backend invocation: runs the
validators, merges the per-call options into the stored defaults, resolves the
backend and returns the dispatch record together with the kernel state after
the call (the method never assigns to `self`, so the state passes through). -/
def call (self : Kernel) (X1 X2 : Tensor) (out : Option Tensor)
    (opt : Option FalkonOptions) : Except Err (Dispatch × Kernel) :=
  match _check_mm_dimensions X1 X2 out with
  | .error e => .error e
  | .ok (X1, X2, out) =>
    match _check_device_properties [some X1, some X2, out] "kernel" with
    | .error e => .error e
    | .ok _ =>
      let params := match opt with
        | none => self.params
        | some o => dataclasses_replace self.params o
      match _decide_mm_impl X1 X2 params with
      | .error e => .error e
      | .ok ir =>
        .ok ({ backend := ir.1, warned := ir.2, X1 := X1, X2 := X2,
               v := none, w := none, out := out, params := params }, self)

/-- Embedding of `Kernel.mmv(X1, X2, v, out, opt)` up to the backend invocation. -/
def mmv (self : Kernel) (X1 X2 v : Tensor) (out : Option Tensor)
    (opt : Option FalkonOptions) : Except Err (Dispatch × Kernel) :=
  match _check_mmv_dimensions X1 X2 v out with
  | .error e => .error e
  | .ok (X1, X2, v, out) =>
    match _check_device_properties [some X1, some X2, some v, out] "mmv" with
    | .error e => .error e
    | .ok _ =>
      let params := match opt with
        | none => self.params
        | some o => dataclasses_replace self.params o
      match _decide_mmv_impl X1 X2 v params with
      | .error e => .error e
      | .ok ir =>
        .ok ({ backend := ir.1, warned := ir.2, X1 := X1, X2 := X2,
               v := some v, w := none, out := out, params := params }, self)

/-- Embedding of `Kernel.dmmv(X1, X2, v, w, out, opt)` up to the backend invocation. -/
def dmmv (self : Kernel) (X1 X2 : Tensor) (v w out : Option Tensor)
    (opt : Option FalkonOptions) : Except Err (Dispatch × Kernel) :=
  match _check_dmmv_dimensions X1 X2 v w out with
  | .error e => .error e
  | .ok (X1, X2, v, w, out) =>
    match _check_device_properties [some X1, some X2, v, w, out] "dmmv" with
    | .error e => .error e
    | .ok _ =>
      let params := match opt with
        | none => self.params
        | some o => dataclasses_replace self.params o
      match _decide_dmmv_impl X1 X2 v w params with
      | .error e => .error e
      | .ok ir =>
        .ok ({ backend := ir.1, warned := ir.2, X1 := X1, X2 := X2,
               v := v, w := w, out := out, params := params }, self)

end Kernel

/-! ### Theorems -/

/-- C1: the fused double-product decomposer computes, when both `v` and `w`
are present, `mmv_fn(X2, X1, mmv_fn(X1, X2, v) + w)`; when only `w` is
present, `mmv_fn(X2, X1, w)` with no first stage; when only `v` is present,
`mmv_fn(X2, X1, mmv_fn(X1, X2, v))` with no addition step.  In every case the
operands are swapped on the outer call. -/
theorem keops_dmmv_helper_decomposition {M V : Type} (add : V → V → V)
    (mmv_fn : M → M → Option V → Option V → V) (X1 X2 : M) (v w : V)
    (out : Option V) :
    keops_dmmv_helper add mmv_fn X1 X2 (some v) (some w) out
      = some (mmv_fn X2 X1 (some (add (mmv_fn X1 X2 (some v) none) w)) out)
    ∧ keops_dmmv_helper add mmv_fn X1 X2 none (some w) out
      = some (mmv_fn X2 X1 (some w) out)
    ∧ keops_dmmv_helper add mmv_fn X1 X2 (some v) none out
      = some (mmv_fn X2 X1 (some (mmv_fn X1 X2 (some v) none)) out) :=
  ⟨rfl, rfl, rfl⟩

/-- C2: `should_use_keops(T1, T2, opt)` returns true iff both operands are
dense, `decide_keops(opt)` holds (engine installed and activation mode not
"no"/"off"), and either the column count of `T1` is at most 50 or the mode is
"force". -/
theorem should_use_keops_iff (hasKeops : Bool) (T1 T2 : Tensor)
    (opt : FalkonOptions) :
    should_use_keops hasKeops T1 T2 opt = true ↔
      (T1.sparse = false ∧ T2.sparse = false ∧
       decide_keops hasKeops opt = true ∧
       (T1.size 1 ≤ 50 ∨ opt.keops_active = KeopsActive.force)) := by
  rcases T1 with ⟨sh1, d1, t1, sp1⟩
  rcases T2 with ⟨sh2, d2, t2, sp2⟩
  rcases opt with ⟨cpu, ka, dbg⟩
  cases sp1 <;> cases sp2 <;> cases hasKeops <;> cases ka <;>
    simp [should_use_keops, decide_keops, Tensor.size]

/-- C3: `keops_can_handle_dmmv(X1, X2, v, w, opt)` equals the conjunction of
`should_use_keops(X1, X2, opt)` and `should_use_keops(X2, X1, opt)` — the
single-product eligibility check for both argument orderings. -/
theorem keops_can_handle_dmmv_eq (hasKeops : Bool) (X1 X2 : Tensor)
    (v w : Option Tensor) (opt : FalkonOptions) :
    keops_can_handle_dmmv hasKeops X1 X2 v w opt
      = (should_use_keops hasKeops X1 X2 opt
          && should_use_keops hasKeops X2 X1 opt) := rfl

/-- C4: `dmmv` with both `v = None` and `w = None` fails with the "one of v
and w must be specified" error, for every `X1`, `X2`, `out`, `opt` — in
particular even when those arguments would themselves fail the shape, type or
device checks, since the `v`/`w` check runs first. -/
theorem dmmv_none_none_error (k : Kernel) (X1 X2 : Tensor) (out : Option Tensor)
    (opt : Option FalkonOptions) :
    Kernel.dmmv k X1 X2 none none out opt = .error .vwNotSpecified := rfl

/-- C8: `keops_mmv` invoked while the engine is not installed
(`_has_keops = false`) fails with the "pykeops not installed" error before
invoking `run_keops_mmv`, for every choice of arguments; by contrast
ineligibility never raises: with the engine missing, `should_use_keops` is
false on all inputs, so callers silently select the standard backend. -/
theorem keops_mmv_not_installed {M R : Type}
    (run : M → M → M → List M → Option M → String → List String → Nat → String →
      FalkonOptions → R)
    (X1 X2 v : M) (out : Option M) (formula : String) (aliases : List String)
    (other_vars : Option (List M)) (opt : FalkonOptions) :
    keops_mmv false run X1 X2 v out formula aliases other_vars opt
      = .error .pykeopsNotInstalled
    ∧ ∀ (T1 T2 : Tensor) (opt2 : FalkonOptions),
        should_use_keops false T1 T2 opt2 = false := by
  refine ⟨rfl, fun T1 T2 opt2 => ?_⟩
  unfold should_use_keops decide_keops
  split_ifs <;> simp_all

/-- Unfolds of `Option.filter` on `none`, for rewriting the validators. -/
theorem option_filter_none (p : Tensor → Bool) : Option.filter p none = none := rfl

/-- Unfolds of `Option.filter` on `some`, for rewriting the validators. -/
theorem option_filter_some (p : Tensor → Bool) (t : Tensor) :
    Option.filter p (some t) = if p t then some t else none := rfl

/-- The coerced vector is rank-2 exactly when the original was rank-1 or
rank-2. -/
theorem coerceVec_dim (t : Tensor) :
    (coerceVec t).dim = 2 ↔ (t.dim = 1 ∨ t.dim = 2) := by
  unfold coerceVec Tensor.reshapeCol Tensor.dim
  split_ifs <;> simp_all

/-- A successful `_check_mm_dimensions` returns its arguments unchanged. -/
theorem check_mm_ok_val {X1 X2 : Tensor} {out : Option Tensor}
    {r : Tensor × Tensor × Option Tensor}
    (h : Kernel._check_mm_dimensions X1 X2 out = .ok r) : r = (X1, X2, out) := by
  unfold Kernel._check_mm_dimensions at h
  cases out <;> simp only [Option.filter] at h <;> repeat' split at h
  all_goals simp_all

/-- A successful `_check_mmv_dimensions` returns the arguments with the
vector coerced to column form. -/
theorem check_mmv_ok_val {X1 X2 v : Tensor} {out : Option Tensor}
    {r : Tensor × Tensor × Tensor × Option Tensor}
    (h : Kernel._check_mmv_dimensions X1 X2 v out = .ok r) :
    r = (X1, X2, coerceVec v, out) := by
  unfold Kernel._check_mmv_dimensions at h
  cases out <;> simp only [Option.filter] at h <;> repeat' split at h
  all_goals simp_all

/-- A successful `_check_dmmv_dimensions` returns the arguments with the
vectors coerced to column form. -/
theorem check_dmmv_ok_val {X1 X2 : Tensor} {v w out : Option Tensor}
    {r : Tensor × Tensor × Option Tensor × Option Tensor × Option Tensor}
    (h : Kernel._check_dmmv_dimensions X1 X2 v w out = .ok r) :
    r = (X1, X2, v.map coerceVec, w.map coerceVec, out) := by
  unfold Kernel._check_dmmv_dimensions at h
  cases v <;> cases w <;> cases out <;>
    simp only [Option.map_some', Option.map_none', Option.filter] at h <;>
    repeat' split at h
  all_goals simp_all

/-- A passing device check yields `ok`. -/
theorem check_device_ok {args : List (Option Tensor)} {fn : String}
    (h : check_same_device args = true) :
    Kernel._check_device_properties args fn = .ok () := by
  unfold Kernel._check_device_properties
  simp [h]

/-- Mixed sparsity makes `_decide_mm_impl` fail. -/
theorem decide_mm_impl_sparsity {X1 X2 : Tensor} {opt : FalkonOptions}
    (hs : X1.sparse ≠ X2.sparse) :
    Kernel._decide_mm_impl X1 X2 opt = .error .sparsityMismatch := by
  unfold Kernel._decide_mm_impl
  cases h1 : X1.sparse <;> cases h2 : X2.sparse <;> simp_all [check_sparse]

/-- Mixed sparsity makes `_decide_mmv_impl` fail. -/
theorem decide_mmv_impl_sparsity {X1 X2 v : Tensor} {opt : FalkonOptions}
    (hs : X1.sparse ≠ X2.sparse) :
    Kernel._decide_mmv_impl X1 X2 v opt = .error .sparsityMismatch := by
  unfold Kernel._decide_mmv_impl
  cases h1 : X1.sparse <;> cases h2 : X2.sparse <;> simp_all [check_sparse]

/-- Mixed sparsity makes `_decide_dmmv_impl` fail. -/
theorem decide_dmmv_impl_sparsity {X1 X2 : Tensor} {v w : Option Tensor}
    {opt : FalkonOptions} (hs : X1.sparse ≠ X2.sparse) :
    Kernel._decide_dmmv_impl X1 X2 v w opt = .error .sparsityMismatch := by
  unfold Kernel._decide_dmmv_impl
  cases h1 : X1.sparse <;> cases h2 : X2.sparse <;> simp_all [check_sparse]

/-- C5 (counterexample): a call with mixed sparsity does not always fail with
the sparsity-inconsistency error — when another argument is itself invalid
(here `v` has rank 3) the shape error from the validator is raised first, so
the claim "regardless of the validity of the other arguments" fails. -/
theorem mmv_sparsity_not_first_counterexample :
    Kernel.mmv ⟨"gaussian", "gaussian", ⟨true, .auto, false⟩⟩
        ⟨[2, 2], .cpu, .float32, true⟩ ⟨[2, 2], .cpu, .float32, false⟩
        ⟨[2, 2, 2], .cpu, .float32, false⟩ none none
      = .error (.vBadRank 3)
    ∧ Err.vBadRank 3 ≠ Err.sparsityMismatch := by
  refine ⟨rfl, by decide⟩

/-- C5 (amended): the sparsity-inconsistency check runs after shape, dtype
and device validation: for every public operation (`__call__`, `mmv`,
`dmmv`) whose arguments pass the dimension/dtype validator and the device
check, mixed sparsity of `X1`, `X2` fails the call with the
sparsity-inconsistency error; when another argument is invalid, that earlier
validation error is raised instead. -/
theorem public_ops_sparsity_error (k : Kernel) (X1 X2 v : Tensor)
    (vo w out : Option Tensor) (opt : Option FalkonOptions)
    (hs : X1.sparse ≠ X2.sparse) :
    (exceptOk (Kernel._check_mm_dimensions X1 X2 out) = true →
      check_same_device [some X1, some X2, out] = true →
      Kernel.call k X1 X2 out opt = .error .sparsityMismatch)
    ∧ (exceptOk (Kernel._check_mmv_dimensions X1 X2 v out) = true →
      check_same_device [some X1, some X2, some (coerceVec v), out] = true →
      Kernel.mmv k X1 X2 v out opt = .error .sparsityMismatch)
    ∧ (exceptOk (Kernel._check_dmmv_dimensions X1 X2 vo w out) = true →
      check_same_device
          [some X1, some X2, vo.map coerceVec, w.map coerceVec, out] = true →
      Kernel.dmmv k X1 X2 vo w out opt = .error .sparsityMismatch) := by
  refine ⟨?_, ?_, ?_⟩ <;> intro h1 h2
  · rcases e : Kernel._check_mm_dimensions X1 X2 out with er | r
    · rw [e] at h1; simp [exceptOk] at h1
    · have hr := check_mm_ok_val e
      subst hr
      unfold Kernel.call
      simp [e, check_device_ok h2, decide_mm_impl_sparsity hs]
  · rcases e : Kernel._check_mmv_dimensions X1 X2 v out with er | r
    · rw [e] at h1; simp [exceptOk] at h1
    · have hr := check_mmv_ok_val e
      subst hr
      unfold Kernel.mmv
      simp [e, check_device_ok h2, decide_mmv_impl_sparsity hs]
  · rcases e : Kernel._check_dmmv_dimensions X1 X2 vo w out with er | r
    · rw [e] at h1; simp [exceptOk] at h1
    · have hr := check_dmmv_ok_val e
      subst hr
      unfold Kernel.dmmv
      simp [e, check_device_ok h2, decide_dmmv_impl_sparsity hs]

/-- C5 (witness). -/
theorem public_ops_sparsity_error_witness :
    Kernel.mmv ⟨"gaussian", "gaussian", ⟨true, .auto, false⟩⟩
        ⟨[2, 2], .cpu, .float32, true⟩ ⟨[2, 2], .cpu, .float32, false⟩
        ⟨[2, 2], .cpu, .float32, false⟩ none none
      = .error .sparsityMismatch :=
  (public_ops_sparsity_error ⟨"gaussian", "gaussian", ⟨true, .auto, false⟩⟩
      ⟨[2, 2], .cpu, .float32, true⟩ ⟨[2, 2], .cpu, .float32, false⟩
      ⟨[2, 2], .cpu, .float32, false⟩ none none none none
      (by decide)).2.1 (by decide) (by decide)

/-- C6: `_check_mmv_dimensions` passes exactly when `X1` and `X2` are rank-2,
`v` is rank-1 (coerced to a single-column matrix before the remaining checks)
or rank-2, a supplied `out` has shape `(rows(X1), cols(v))`, `v` has shape
`(rows(X2), cols(v))`, and all supplied operands share one dtype; a supplied
`out` of the wrong shape yields the shape error naming the expected shape;
and every validation error propagates out of `mmv` before any backend is
resolved or invoked. -/
theorem check_mmv_validation (X1 X2 v : Tensor) (out : Option Tensor) :
    (exceptOk (Kernel._check_mmv_dimensions X1 X2 v out) = true ↔
      (X1.dim = 2 ∧ X2.dim = 2 ∧ (v.dim = 1 ∨ v.dim = 2) ∧
       out.all (fun o => o.shape == [X1.size 0, (coerceVec v).size 1]) = true ∧
       (coerceVec v).shape = [X2.size 0, (coerceVec v).size 1] ∧
       check_same_dtype [some X1, some X2, some (coerceVec v), out] = true))
    ∧ (∀ o, out = some o → X1.dim = 2 → X2.dim = 2 → (v.dim = 1 ∨ v.dim = 2) →
        o.shape ≠ [X1.size 0, (coerceVec v).size 1] →
        Kernel._check_mmv_dimensions X1 X2 v out
          = .error (.outShape (X1.size 0) ((coerceVec v).size 1) o.shape))
    ∧ (∀ (k : Kernel) (opt : Option FalkonOptions) (e : Err),
        Kernel._check_mmv_dimensions X1 X2 v out = .error e →
        Kernel.mmv k X1 X2 v out opt = .error e) := by
  refine ⟨?_, ?_, ?_⟩
  · have hd := coerceVec_dim v
    cases out with
    | none =>
      by_cases h1 : X1.dim = 2 <;> by_cases h2 : X2.dim = 2 <;>
        by_cases h3 : (coerceVec v).dim = 2 <;>
        by_cases h5 : (coerceVec v).shape = [X2.size 0, (coerceVec v).size 1] <;>
        by_cases h6 : check_same_dtype
          [some X1, some X2, some (coerceVec v), none] = true <;>
        simp_all [Kernel._check_mmv_dimensions, exceptOk, Option.filter]
    | some o =>
      by_cases h1 : X1.dim = 2 <;> by_cases h2 : X2.dim = 2 <;>
        by_cases h3 : (coerceVec v).dim = 2 <;>
        by_cases h4 : o.shape = [X1.size 0, (coerceVec v).size 1] <;>
        by_cases h5 : (coerceVec v).shape = [X2.size 0, (coerceVec v).size 1] <;>
        by_cases h6 : check_same_dtype
          [some X1, some X2, some (coerceVec v), some o] = true <;>
        simp_all [Kernel._check_mmv_dimensions, exceptOk, Option.filter]
  · rintro o rfl h1 h2 h3 h4
    have h3' : (coerceVec v).dim = 2 := (coerceVec_dim v).mpr h3
    simp [Kernel._check_mmv_dimensions, Option.filter, h1, h2, h3', h4]
  · intro k opt e he
    unfold Kernel.mmv
    rw [he]

/-- C6 (witness). -/
theorem check_mmv_validation_witness :
    exceptOk (Kernel._check_mmv_dimensions ⟨[2, 2], .cpu, .float32, false⟩
        ⟨[2, 2], .cpu, .float32, false⟩ ⟨[2, 2], .cpu, .float32, false⟩ none) = true
    ∧ Kernel._check_mmv_dimensions ⟨[2, 2], .cpu, .float32, false⟩
        ⟨[2, 2], .cpu, .float32, false⟩ ⟨[2, 2], .cpu, .float32, false⟩
        (some ⟨[3, 2], .cpu, .float32, false⟩)
      = .error (.outShape 2 2 [3, 2])
    ∧ Kernel.mmv ⟨"gaussian", "gaussian", ⟨true, .auto, false⟩⟩
        ⟨[2, 2], .cpu, .float32, false⟩ ⟨[2, 2], .cpu, .float32, false⟩
        ⟨[2, 2], .cpu, .float32, false⟩ (some ⟨[3, 2], .cpu, .float32, false⟩) none
      = .error (.outShape 2 2 [3, 2]) :=
  ⟨(check_mmv_validation _ _ _ none).1.mpr (by decide),
   (check_mmv_validation _ _ _ _).2.1 _ rfl (by decide) (by decide)
     (by decide) (by decide),
   (check_mmv_validation _ _ _ _).2.2 _ none _ rfl⟩

/-- C7: for operands that share a device and a sparsity flag (as every call
reaching a resolver does, the device check having run first), each of the
three backend resolvers returns, without error, the backend of its family
selected from {GPU, CPU} x {sparse, dense} by the (possibly overridden)
CUDA decision and the shared sparsity; the decision is overridden to GPU
exactly when some primary operand sits on a GPU device while `decide_cuda`
prefers CPU, and the advisory warning fires exactly in that case. -/
theorem decide_impl_gpu_override (X1 X2 v : Tensor) (vo w : Option Tensor)
    (opt : FalkonOptions) (hdev : X1.device = X2.device)
    (hsp : X1.sparse = X2.sparse) :
    Kernel._decide_mm_impl X1 X2 opt
      = .ok (mm_backend
          (decide_cuda opt || (X1.device == Device.cuda || X2.device == Device.cuda))
          X1.sparse,
        (X1.device == Device.cuda || X2.device == Device.cuda) && !(decide_cuda opt))
    ∧ Kernel._decide_mmv_impl X1 X2 v opt
      = .ok (mmv_backend
          (decide_cuda opt || (X1.device == Device.cuda || X2.device == Device.cuda))
          X1.sparse,
        (X1.device == Device.cuda || X2.device == Device.cuda) && !(decide_cuda opt))
    ∧ Kernel._decide_dmmv_impl X1 X2 vo w opt
      = .ok (dmmv_backend
          (decide_cuda opt || (X1.device == Device.cuda || X2.device == Device.cuda))
          X1.sparse,
        (X1.device == Device.cuda || X2.device == Device.cuda) && !(decide_cuda opt)) := by
  cases hd1 : X1.device <;> cases hd2 : X2.device <;>
    cases hs1 : X1.sparse <;> cases hs2 : X2.sparse <;>
    cases hc : opt.use_cpu <;>
    simp_all [Kernel._decide_mm_impl, Kernel._decide_mmv_impl,
      Kernel._decide_dmmv_impl, decide_cuda, check_sparse,
      mm_backend, mmv_backend, dmmv_backend] <;>
    decide

/-- C7 (witness). -/
theorem decide_impl_gpu_override_witness :
    Kernel._decide_mm_impl ⟨[2, 2], .cuda, .float32, false⟩
        ⟨[2, 2], .cuda, .float32, false⟩ ⟨true, .auto, false⟩
      = .ok (.fmm_cuda, true)
    ∧ Kernel._decide_mmv_impl ⟨[2, 2], .cuda, .float32, false⟩
        ⟨[2, 2], .cuda, .float32, false⟩ ⟨[2, 2], .cuda, .float32, false⟩
        ⟨true, .auto, false⟩
      = .ok (.fmmv_cuda, true)
    ∧ Kernel._decide_dmmv_impl ⟨[2, 2], .cuda, .float32, false⟩
        ⟨[2, 2], .cuda, .float32, false⟩ none none ⟨true, .auto, false⟩
      = .ok (.fdmmv_cuda, true) :=
  decide_impl_gpu_override ⟨[2, 2], .cuda, .float32, false⟩
    ⟨[2, 2], .cuda, .float32, false⟩ ⟨[2, 2], .cuda, .float32, false⟩
    none none ⟨true, .auto, false⟩ rfl rfl

/-- C9: the per-call configuration merge is pure: whenever a public operation
called with a per-call `opt` succeeds, the kernel state coming out of the
call is the state that went in (the stored default policy is not mutated; the
caller's `opt` record, being an input value, is likewise untouched), and the
policy handed to the dispatched backend is the freshly built record obtained
by replacing every field of the default policy with `opt`'s fields. -/
theorem params_merge_pure (k : Kernel) (X1 X2 v : Tensor)
    (vo w out : Option Tensor) (o : FalkonOptions) :
    (∀ d k2, Kernel.call k X1 X2 out (some o) = .ok (d, k2) →
      k2 = k ∧ d.params = dataclasses_replace k.params o)
    ∧ (∀ d k2, Kernel.mmv k X1 X2 v out (some o) = .ok (d, k2) →
      k2 = k ∧ d.params = dataclasses_replace k.params o)
    ∧ (∀ d k2, Kernel.dmmv k X1 X2 vo w out (some o) = .ok (d, k2) →
      k2 = k ∧ d.params = dataclasses_replace k.params o) := by
  refine ⟨?_, ?_, ?_⟩ <;> intro d k2 h
  · unfold Kernel.call at h
    rcases e1 : Kernel._check_mm_dimensions X1 X2 out with er | ⟨a, b, c⟩
    · simp [e1] at h
    · rcases e2 : Kernel._check_device_properties [some a, some b, c] "kernel"
        with er2 | u
      · simp [e1, e2] at h
      · rcases e3 : Kernel._decide_mm_impl a b (dataclasses_replace k.params o)
          with er3 | ir
        · simp [e1, e2, e3] at h
        · simp [e1, e2, e3] at h
          obtain ⟨h1, h2⟩ := h
          subst h1; subst h2
          exact ⟨rfl, rfl⟩
  · unfold Kernel.mmv at h
    rcases e1 : Kernel._check_mmv_dimensions X1 X2 v out with er | ⟨a, b, c, dd⟩
    · simp [e1] at h
    · rcases e2 : Kernel._check_device_properties [some a, some b, some c, dd] "mmv"
        with er2 | u
      · simp [e1, e2] at h
      · rcases e3 : Kernel._decide_mmv_impl a b c (dataclasses_replace k.params o)
          with er3 | ir
        · simp [e1, e2, e3] at h
        · simp [e1, e2, e3] at h
          obtain ⟨h1, h2⟩ := h
          subst h1; subst h2
          exact ⟨rfl, rfl⟩
  · unfold Kernel.dmmv at h
    rcases e1 : Kernel._check_dmmv_dimensions X1 X2 vo w out
      with er | ⟨a, b, c, dd, ee⟩
    · simp [e1] at h
    · rcases e2 : Kernel._check_device_properties [some a, some b, c, dd, ee] "dmmv"
        with er2 | u
      · simp [e1, e2] at h
      · rcases e3 : Kernel._decide_dmmv_impl a b c dd (dataclasses_replace k.params o)
          with er3 | ir
        · simp [e1, e2, e3] at h
        · simp [e1, e2, e3] at h
          obtain ⟨h1, h2⟩ := h
          subst h1; subst h2
          exact ⟨rfl, rfl⟩

/-- C9 (witness). -/
theorem params_merge_pure_witness :
    (⟨"gaussian", "gaussian", ⟨true, .auto, false⟩⟩ : Kernel)
        = ⟨"gaussian", "gaussian", ⟨true, .auto, false⟩⟩
    ∧ Dispatch.params
        ⟨.fmmv_cuda, false, ⟨[2, 2], .cpu, .float32, false⟩,
          ⟨[2, 2], .cpu, .float32, false⟩, some ⟨[2, 2], .cpu, .float32, false⟩,
          none, none, ⟨false, .force, true⟩⟩
        = dataclasses_replace ⟨true, .auto, false⟩ ⟨false, .force, true⟩ :=
  (params_merge_pure ⟨"gaussian", "gaussian", ⟨true, .auto, false⟩⟩
      ⟨[2, 2], .cpu, .float32, false⟩ ⟨[2, 2], .cpu, .float32, false⟩
      ⟨[2, 2], .cpu, .float32, false⟩ none none none ⟨false, .force, true⟩).2.1
    ⟨.fmmv_cuda, false, ⟨[2, 2], .cpu, .float32, false⟩,
      ⟨[2, 2], .cpu, .float32, false⟩, some ⟨[2, 2], .cpu, .float32, false⟩,
      none, none, ⟨false, .force, true⟩⟩
    ⟨"gaussian", "gaussian", ⟨true, .auto, false⟩⟩ rfl

/-- C10 (counterexample): calling `keops_dmmv_helper` with both `v` and `w`
absent does not leave the helper inert: the `elif v is None` branch matches,
`mmv_fn` is invoked as `mmv_fn(X2, X1, None, out)` (here returning 215, a
value only that invocation can produce), and the result is not `None`. -/
theorem keops_dmmv_helper_none_none_counterexample :
    keops_dmmv_helper Nat.add
        (fun a b c d => 100 * a + 10 * b + c.getD 5 + d.getD 0)
        1 2 none none none = some 215
    ∧ keops_dmmv_helper Nat.add
        (fun a b c d => 100 * a + 10 * b + c.getD 5 + d.getD 0)
        1 2 none none none ≠ none := by
  refine ⟨rfl, by decide⟩

/-- C10 (amended): when both `v` and `w` are `None`, the `elif v is None`
branch of `keops_dmmv_helper` matches: `mmv_fn(X2, X1, None, out)` is invoked
once and the helper returns its result; it does not fall through to an
implicit `None` return. -/
theorem keops_dmmv_helper_none_none {M V : Type} (add : V → V → V)
    (mmv_fn : M → M → Option V → Option V → V) (X1 X2 : M) (out : Option V) :
    keops_dmmv_helper add mmv_fn X1 X2 none none out
      = some (mmv_fn X2 X1 none out) := rfl

end Falkon
